import Mathlib

/-!
Verification of the FlightAgent dashboard (src/app.py) against its
natural-language specification.

Shallow embedding conventions:
* Calendar dates (`datetime.now() + timedelta(days=i)`, rendered
  `'%Y-%m-%d'`) are modelled by absolute day numbers (`Nat`); `today`
  is an arbitrary day number `todayD` and `today + i days` is
  `todayD + i`.  Two dates render to the same string iff they are the
  same day number, so distinctness/order of dates is distinctness/order
  of the numbers.
* `weekday()` (0 = Monday .. 6 = Sunday) of `today + i` is
  `(todayW + i) % 7` for the weekday `todayW` of `today`; `strftime('%A')`
  is the `dayName` of that number.
* `random.randint(a, b)` draws are modelled by oracle functions
  `base surcharge : Nat → Nat` giving the draw consumed at loop index
  `i`; the inclusive-range guarantee of `randint` becomes an explicit
  hypothesis `a ≤ draw i ∧ draw i ≤ b`.
* pandas `Series.mean()` on an empty selection yields NaN; NaN is
  modelled as the absent value (`Option.none`).  `Series.idxmin()` on an
  empty series raises `ValueError("attempt to get argmin of an empty
  sequence")`; a raised exception is modelled as `Except.error`.
* The network collaborators (wttr.in weather endpoint, Anthropic
  messages endpoint) are modelled as oracle inputs describing the
  observable outcome of the call.
-/

/-- A row of the DataFrame built by `generate_flight_data`:
`{'date': ..., 'price': ..., 'day_of_week': ...}`.  `date` is an
absolute day number, `price` the integer price, `day_of_week` the
English weekday name recorded by `strftime('%A')`. -/
structure PricePoint where
  date : Nat
  price : Nat
  day_of_week : String
deriving Repr, DecidableEq

/-- `strftime('%A')` for a Python weekday number (0 = Monday .. 6 = Sunday). -/
def dayName : Nat → String
  | 0 => "Monday"
  | 1 => "Tuesday"
  | 2 => "Wednesday"
  | 3 => "Thursday"
  | 4 => "Friday"
  | 5 => "Saturday"
  | _ => "Sunday"

/-- `generate_flight_data(origin, destination, days)` from src/app.py
lines 51-71.  `todayD` is today's absolute day number, `todayW` today's
Python weekday, `base i` / `surcharge i` the values the two
`random.randint` calls return at loop index `i`.  For each
`i ∈ [0, days)` the date is `today + i`, the base price is
`base i` (drawn from 300..500), and if the weekday number
`(todayW + i) % 7` is in `[4, 5, 6]` (Fri/Sat/Sun) the surcharge
`surcharge i` (drawn from 100..200) is added.  `origin` and
`destination` are carried but unused, as in the source. -/
def generate_flight_data (origin destination : String) (todayD todayW : Nat)
    (base surcharge : Nat → Nat) (days : Nat) : List PricePoint :=
  let _ := origin
  let _ := destination
  (List.range days).map (fun i =>
    let day_of_week_num := (todayW + i) % 7
    let base_price := base i
    let price :=
      if day_of_week_num = 4 ∨ day_of_week_num = 5 ∨ day_of_week_num = 6 then
        base_price + surcharge i
      else
        base_price
    { date := todayD + i
      price := price
      day_of_week := dayName day_of_week_num })

/-- pandas `Series.min()` over a list of prices; `none` on an empty list
(where pandas yields NaN). -/
def listMin : List Nat → Option Nat
  | [] => none
  | x :: xs =>
    match listMin xs with
    | none => some x
    | some m => some (Nat.min x m)

/-- pandas `Series.max()` over a list of prices; `none` on an empty list. -/
def listMax : List Nat → Option Nat
  | [] => none
  | x :: xs =>
    match listMax xs with
    | none => some x
    | some m => some (Nat.max x m)

/-- pandas `Series.mean()` as an exact rational; use sites guard the
empty case (where pandas yields NaN) before calling. -/
def seriesMean (l : List Nat) : ℚ := (l.sum : ℚ) / (l.length : ℚ)

/-- The aggregate the advice path derives from the series (src/app.py
lines 77-80): `avg_price`, `min_price`, `max_price` and `best_day`, the
date at `idxmin` of the price column. -/
structure PriceSummary where
  avg_price : ℚ
  min_price : Nat
  max_price : Nat
  best_day : Nat
deriving Repr, DecidableEq

/-- Lines 77-80 of `get_travel_advice`: mean/min/max of the price column
and `flight_data.loc[flight_data['price'].idxmin(), 'date']`.  On an
empty series `idxmin` raises `ValueError("attempt to get argmin of an
empty sequence")`, modelled by the `.error` branch.  `idxmin` returns
the first index attaining the minimum, so the `loc` row is the first
point whose price equals the minimum (`List.find?`). -/
def computeSummary (s : List PricePoint) : Except String PriceSummary :=
  match listMin (s.map PricePoint.price), listMax (s.map PricePoint.price) with
  | some mn, some mx =>
    match s.find? (fun p => p.price == mn) with
    | some p =>
        .ok { avg_price := seriesMean (s.map PricePoint.price)
              min_price := mn
              max_price := mx
              best_day := p.date }
    | none => .error "attempt to get argmin of an empty sequence"
  | _, _ => .error "attempt to get argmin of an empty sequence"

/-- The membership list of lines 151-152: `['Friday', 'Saturday', 'Sunday']`. -/
def weekendNames : List String := ["Friday", "Saturday", "Sunday"]

/-- Line 151: mean price over the rows whose `day_of_week` is in
`['Friday', 'Saturday', 'Sunday']`; an empty selection gives pandas NaN,
modelled as `none`. -/
def weekend_avg (s : List PricePoint) : Option ℚ :=
  let sel := (s.filter fun p => weekendNames.contains p.day_of_week).map PricePoint.price
  if sel.isEmpty then none else some (seriesMean sel)

/-- Line 152: mean price over the rows whose `day_of_week` is not in
`['Friday', 'Saturday', 'Sunday']`; an empty selection gives pandas NaN,
modelled as `none`. -/
def weekday_avg (s : List PricePoint) : Option ℚ :=
  let sel := (s.filter fun p => !(weekendNames.contains p.day_of_week)).map PricePoint.price
  if sel.isEmpty then none else some (seriesMean sel)

/-- The wttr.in JSON fields `get_weather` reads:
`data['current_condition'][0]['temp_C']`, `['weatherDesc'][0]['value']`,
`['humidity']`, `['windspeedKmph']` (all strings in that API). -/
structure RawWeather where
  temp_C : String
  weatherDesc : String
  humidity : String
  windspeedKmph : String
deriving Repr, DecidableEq

/-- Observable outcome of `requests.get(url, timeout=5)` plus parsing:
`response status payload` is an HTTP response with the given status
code, `payload = some raw` when `.json()` parses and the expected fields
are present, `payload = none` when parsing or field access raises;
`exn msg` is a raised requests exception (timeout, connection error). -/
inductive FetchOutcome where
  | response (status : Nat) (payload : Option RawWeather)
  | exn (msg : String)
deriving Repr, DecidableEq

/-- The dict `get_weather` returns on success. -/
structure WeatherSnapshot where
  temp : String
  description : String
  humidity : String
  wind_speed : String
deriving Repr, DecidableEq

/-- `get_weather(city)` from lines 31-48, as a function of the network
outcome for that city: any raised exception is caught (the handler shows
an error banner and falls through to `return None`); a non-200 status
skips the success branch and returns `None`; a 200 response whose body
parses returns the four-field dict. -/
def get_weather (r : FetchOutcome) : Option WeatherSnapshot :=
  match r with
  | .exn _ => none
  | .response status payload =>
    if status = 200 then
      match payload with
      | some raw =>
          some { temp := raw.temp_C
                 description := raw.weatherDesc
                 humidity := raw.humidity
                 wind_speed := raw.windspeedKmph }
      | none => none
    else none

/-- Substring containment, via the underlying character lists. -/
def strContains (hay needle : String) : Prop :=
  ∃ l r : List Char, hay.data = l ++ needle.data ++ r

/-- Python `:.2f` formatting of the exact rational value: the amount
rounded to cents (round half away from zero realised as floor of
`q*100 + 1/2` on the nonnegative amounts that occur here), printed with
two digits after the point.  (CPython rounds the nearest double to
even; the rounding mode is irrelevant to the claims, which treat the
rendered figure as opaque text.) -/
def fmt2 (q : ℚ) : String :=
  let c : Int := Int.fdiv (q.num * 200 + q.den) (2 * q.den)
  let n : Nat := c.natAbs
  (if c < 0 then "-" else "") ++ toString (n / 100) ++ "." ++
    (if n % 100 < 10 then "0" else "") ++ toString (n % 100)

/-- `weather_info` from lines 82-84: the empty string when
`weather_data` is falsy, otherwise the weather block of the f-string.
Note that the block labels the figures with `destination` — not with
the city the snapshot was fetched for. -/
def weather_info (destination : String) (w : Option WeatherSnapshot) : String :=
  match w with
  | none => ""
  | some wd =>
      "\n\n" ++ ("Current weather in " ++ destination) ++ ":\n" ++
      ("- Temperature: " ++ wd.temp ++ "°C") ++ "\n" ++
      ("- Conditions: " ++ wd.description) ++ "\n" ++
      ("- Humidity: " ++ wd.humidity ++ "%") ++ "\n" ++
      ("- Wind Speed: " ++ wd.wind_speed ++ " km/h")

/-- The part of the prompt f-string (lines 86-94) before `{weather_info}`:
preamble, route and price analysis. -/
def prompt_head (origin destination : String) (sm : PriceSummary) : String :=
  "You are a professional travel agent. Analyze this flight data and provide personalized travel advice.\n\n" ++
  ("Flight Route: " ++ (origin ++ " to " ++ destination)) ++ "\n\n" ++
  "Price Analysis:\n" ++
  ("- Average Price: $" ++ fmt2 sm.avg_price) ++ "\n" ++
  ("- Lowest Price: $" ++ fmt2 (sm.min_price : ℚ) ++ " (on " ++ toString sm.best_day ++ ")") ++ "\n" ++
  ("- Highest Price: $" ++ fmt2 (sm.max_price : ℚ)) ++ "\n"

/-- The part of the prompt f-string (lines 95-102) after `{weather_info}`. -/
def prompt_tail : String :=
  "\n\nPlease provide:\n1. Best time to book based on price patterns\n2. Travel tips for this destination\n3. Weather considerations\n4. Money-saving recommendations\n\nKeep your response conversational and helpful."

/-- The prompt of lines 86-102: head, then `weather_info`, then tail. -/
def build_prompt (origin destination : String) (sm : PriceSummary)
    (w : Option WeatherSnapshot) : String :=
  prompt_head origin destination sm ++ weather_info destination w ++ prompt_tail

/-- The advice prompt as it reads when no weather snapshot is available:
only the fixed template and the price figures.  No weather text occurs
in it: neither `prompt_head` nor `prompt_tail` mentions any weather
field, and the `weather_info` block is gone. -/
def prompt_without_weather (origin destination : String) (sm : PriceSummary) : String :=
  prompt_head origin destination sm ++ prompt_tail

/-- Observable outcome of `client.messages.create(...)`:
`success texts` is a returned message whose content blocks carry the
given texts, `failure msg` a raised exception with `str(e) = msg`. -/
inductive LLMResult where
  | success (blocks : List String)
  | failure (msg : String)
deriving Repr, DecidableEq

/-- The `try`/`except` of lines 104-114: on success return
`message.content[0].text` (when the content list is empty the subscript
raises `IndexError('list index out of range')` inside the `try`, which
the same handler catches); on any caught exception return
`f"Error getting travel advice: {str(e)}"`. -/
def advice_of_result (r : LLMResult) : String :=
  match r with
  | .failure msg => "Error getting travel advice: " ++ msg
  | .success [] => "Error getting travel advice: list index out of range"
  | .success (t :: _) => t

/-- `get_travel_advice(origin, destination, flight_data, weather_data)`
(lines 74-114): the summary statistics of lines 77-80 (which raise on an
empty series, outside the `try`), then the prompt, then the guarded
service call; `svc prompt` is the outcome of the messages call on that
prompt. -/
def get_travel_advice (origin destination : String) (flight_data : List PricePoint)
    (weather_data : Option WeatherSnapshot) (svc : String → LLMResult) :
    Except String String :=
  match computeSummary flight_data with
  | .error e => .error e
  | .ok sm => .ok (advice_of_result (svc (build_prompt origin destination sm weather_data)))

/-- `st.session_state` as the advice button handler reads it:
`flight_df` holds the series stored by the last search (line 126), if
any. -/
structure SessionState where
  flight_df : Option (List PricePoint)

/-- What the advice button handler renders. -/
inductive AdviceOutput where
  | advice (text : String)
  | warning (msg : String)
deriving Repr, DecidableEq

/-- The `Get Personalized Travel Advice` button handler (lines 175-183):
if `'flight_df' in st.session_state`, call `get_travel_advice` on the
stored series and render the returned markdown; otherwise render the
warning and make no call.  An exception escaping `get_travel_advice`
propagates (the `.error` of the inner `Except`). -/
def advice_button_handler (state : SessionState) (origin destination : String)
    (weather_data : Option WeatherSnapshot) (svc : String → LLMResult) :
    Except String AdviceOutput :=
  match state.flight_df with
  | some df => (get_travel_advice origin destination df weather_data svc).map AdviceOutput.advice
  | none => .ok (.warning "Please search for flights first!")

/-- The weather snapshot the app holds at advice time:
`get_weather(weather_city)` from line 162, where `fetch city` is the
network outcome of querying wttr.in for that city. -/
def app_weather_data (weather_city : String) (fetch : String → FetchOutcome) :
    Option WeatherSnapshot :=
  get_weather (fetch weather_city)

/-- The prompt the app sends for the route `origin → destination` when
the weather box queried `weather_city` (lines 162 and 178-180): the
snapshot fetched for `weather_city` is passed to `build_prompt`, which
labels it with `destination`. -/
def app_advice_prompt (origin destination weather_city : String)
    (fetch : String → FetchOutcome) (sm : PriceSummary) : String :=
  build_prompt origin destination sm (app_weather_data weather_city fetch)

theorem generate_length (o d : String) (todayD todayW : Nat)
    (base surcharge : Nat → Nat) (n : Nat) :
    (generate_flight_data o d todayD todayW base surcharge n).length = n := by
  simp [generate_flight_data]

theorem generate_dates_eq (o d : String) (todayD todayW : Nat)
    (base surcharge : Nat → Nat) (n : Nat) :
    (generate_flight_data o d todayD todayW base surcharge n).map PricePoint.date
      = (List.range n).map (fun i => todayD + i) := by
  simp [generate_flight_data, List.map_map]

/-- C1: for every day count `n > 0` (and any labels, start day, start
weekday and random draws) `generate_flight_data` returns exactly `n`
points; the sequence of dates is `today, today + 1, …, today + (n-1)`
(consecutive calendar days starting today), is strictly increasing
(hence has no duplicates), and the first date is today. -/
theorem generate_flight_data_dates (o d : String) (todayD todayW : Nat)
    (base surcharge : Nat → Nat) (n : Nat) (hn : 0 < n) :
    (generate_flight_data o d todayD todayW base surcharge n).length = n ∧
    (generate_flight_data o d todayD todayW base surcharge n).map PricePoint.date
       = (List.range n).map (fun i => todayD + i) ∧
    List.Chain' (fun a b => b = a + 1)
       ((generate_flight_data o d todayD todayW base surcharge n).map PricePoint.date) ∧
    List.Pairwise (· < ·)
       ((generate_flight_data o d todayD todayW base surcharge n).map PricePoint.date) ∧
    ((generate_flight_data o d todayD todayW base surcharge n).map PricePoint.date).head?
       = some todayD := by
  refine ⟨generate_length o d todayD todayW base surcharge n, generate_dates_eq o d todayD todayW base surcharge n, ?_, ?_, ?_⟩
  · rw [generate_dates_eq]
    rw [List.chain'_iff_get]
    intro i hi
    simp only [List.get_eq_getElem, List.getElem_map, List.getElem_range]
    omega
  · rw [generate_dates_eq]
    rw [List.pairwise_map]
    exact (List.pairwise_lt_range n).imp (by omega)
  · rw [generate_dates_eq]
    cases n with
    | zero => exact absurd hn (by omega)
    | succ m => simp [List.range_succ_eq_map]

/-- Witness for C1 at a concrete input: three days starting at day 10 on a Wednesday. -/
theorem generate_flight_data_dates_witness :
    (generate_flight_data "NYC" "London" 10 2 (fun _ => 300) (fun _ => 100) 3).length = 3 ∧
    (generate_flight_data "NYC" "London" 10 2 (fun _ => 300) (fun _ => 100) 3).map PricePoint.date
       = (List.range 3).map (fun i => 10 + i) ∧
    List.Chain' (fun a b => b = a + 1)
       ((generate_flight_data "NYC" "London" 10 2 (fun _ => 300) (fun _ => 100) 3).map PricePoint.date) ∧
    List.Pairwise (· < ·)
       ((generate_flight_data "NYC" "London" 10 2 (fun _ => 300) (fun _ => 100) 3).map PricePoint.date) ∧
    ((generate_flight_data "NYC" "London" 10 2 (fun _ => 300) (fun _ => 100) 3).map PricePoint.date).head?
       = some 10 :=
  generate_flight_data_dates "NYC" "London" 10 2 (fun _ => 300) (fun _ => 100) 3 (by decide)

theorem dayName_weekend_iff (w : Nat) (hw : w < 7) :
    (dayName w = "Friday" ∨ dayName w = "Saturday" ∨ dayName w = "Sunday")
      ↔ (w = 4 ∨ w = 5 ∨ w = 6) := by
  interval_cases w <;> simp [dayName]

/-- C2: for any random draws within the documented `randint` bands
(base in 300..500, surcharge in 100..200), every generated price is
positive; a point whose weekday name is not Friday/Saturday/Sunday has
its price in the base band `[300, 500]`; and a point whose weekday name
is Friday/Saturday/Sunday has price equal to some base draw in
`[300, 500]` plus some surcharge in `[100, 200]`, hence lies in
`[400, 700]` and in particular is at least the base-band floor 300. -/
theorem generate_flight_data_price_bands (o d : String) (todayD todayW : Nat)
    (base surcharge : Nat → Nat) (n : Nat)
    (hbase : ∀ i, 300 ≤ base i ∧ base i ≤ 500)
    (hsur : ∀ i, 100 ≤ surcharge i ∧ surcharge i ≤ 200) :
    ∀ p ∈ generate_flight_data o d todayD todayW base surcharge n,
      0 < p.price ∧
      (¬(p.day_of_week = "Friday" ∨ p.day_of_week = "Saturday" ∨ p.day_of_week = "Sunday") →
         300 ≤ p.price ∧ p.price ≤ 500) ∧
      ((p.day_of_week = "Friday" ∨ p.day_of_week = "Saturday" ∨ p.day_of_week = "Sunday") →
         (∃ b s, 300 ≤ b ∧ b ≤ 500 ∧ 100 ≤ s ∧ s ≤ 200 ∧ p.price = b + s) ∧
         400 ≤ p.price ∧ p.price ≤ 700 ∧ 300 ≤ p.price) := by
  intro p hp
  simp only [generate_flight_data, List.mem_map, List.mem_range] at hp
  obtain ⟨i, _, rfl⟩ := hp
  have hb := hbase i
  have hs := hsur i
  have hmod : (todayW + i) % 7 < 7 := Nat.mod_lt _ (by omega)
  have hiff := dayName_weekend_iff ((todayW + i) % 7) hmod
  by_cases hwk : (todayW + i) % 7 = 4 ∨ (todayW + i) % 7 = 5 ∨ (todayW + i) % 7 = 6
  · refine ⟨?_, ?_, ?_⟩
    · simp only [hwk, if_pos]
      omega
    · intro hname
      exact absurd (hiff.mpr hwk) hname
    · intro _
      constructor
      · exact ⟨base i, surcharge i, hb.1, hb.2, hs.1, hs.2, by simp only [hwk, if_pos]⟩
      · simp only [hwk, if_pos]
        omega
  · refine ⟨?_, ?_, ?_⟩
    · simp only [hwk, if_neg, if_false]
      omega
    · intro _
      simp only [hwk, if_neg, if_false]
      omega
    · intro hname
      exact absurd (hiff.mp hname) hwk

/-- Witness for C2: in a 7-day window starting on a Monday with
constant draws 350 (base) and 150 (surcharge), the Friday point
`⟨4, 500, "Friday"⟩` of the generated series satisfies the bands. -/
theorem generate_flight_data_price_bands_witness :
    0 < (⟨4, 500, "Friday"⟩ : PricePoint).price ∧
    (¬((⟨4, 500, "Friday"⟩ : PricePoint).day_of_week = "Friday" ∨
        (⟨4, 500, "Friday"⟩ : PricePoint).day_of_week = "Saturday" ∨
        (⟨4, 500, "Friday"⟩ : PricePoint).day_of_week = "Sunday") →
       300 ≤ (⟨4, 500, "Friday"⟩ : PricePoint).price ∧
       (⟨4, 500, "Friday"⟩ : PricePoint).price ≤ 500) ∧
    (((⟨4, 500, "Friday"⟩ : PricePoint).day_of_week = "Friday" ∨
        (⟨4, 500, "Friday"⟩ : PricePoint).day_of_week = "Saturday" ∨
        (⟨4, 500, "Friday"⟩ : PricePoint).day_of_week = "Sunday") →
       (∃ b s, 300 ≤ b ∧ b ≤ 500 ∧ 100 ≤ s ∧ s ≤ 200 ∧
          (⟨4, 500, "Friday"⟩ : PricePoint).price = b + s) ∧
       400 ≤ (⟨4, 500, "Friday"⟩ : PricePoint).price ∧
       (⟨4, 500, "Friday"⟩ : PricePoint).price ≤ 700 ∧
       300 ≤ (⟨4, 500, "Friday"⟩ : PricePoint).price) :=
  generate_flight_data_price_bands "NYC" "London" 0 0 (fun _ => 350) (fun _ => 150) 7
    (by intro i; norm_num) (by intro i; norm_num)
    ⟨4, 500, "Friday"⟩ (by decide)

theorem listMin_eq_none_iff (l : List Nat) : listMin l = none ↔ l = [] := by
  cases l with
  | nil => simp [listMin]
  | cons x xs =>
    simp only [listMin]
    cases listMin xs <;> simp

theorem listMax_eq_none_iff (l : List Nat) : listMax l = none ↔ l = [] := by
  cases l with
  | nil => simp [listMax]
  | cons x xs =>
    simp only [listMax]
    cases listMax xs <;> simp

theorem listMin_le (l : List Nat) (m : Nat) (h : listMin l = some m) :
    ∀ x ∈ l, m ≤ x := by
  induction l generalizing m with
  | nil => simp [listMin] at h
  | cons a t ih =>
    intro x hx
    cases ht : listMin t with
    | none =>
      have hte : t = [] := (listMin_eq_none_iff t).mp ht
      subst hte
      simp only [listMin, Option.some.injEq] at h
      simp only [List.mem_singleton] at hx
      omega
    | some mt =>
      simp only [listMin, ht, Option.some.injEq] at h
      rw [show Nat.min a mt = if a ≤ mt then a else mt from rfl] at h
      rcases List.mem_cons.mp hx with rfl | hxt
      · split at h <;> omega
      · have hmt := ih mt ht x hxt
        split at h <;> omega

theorem listMax_ge (l : List Nat) (m : Nat) (h : listMax l = some m) :
    ∀ x ∈ l, x ≤ m := by
  induction l generalizing m with
  | nil => simp [listMax] at h
  | cons a t ih =>
    intro x hx
    cases ht : listMax t with
    | none =>
      have hte : t = [] := (listMax_eq_none_iff t).mp ht
      subst hte
      simp only [listMax, Option.some.injEq] at h
      simp only [List.mem_singleton] at hx
      omega
    | some mt =>
      simp only [listMax, ht, Option.some.injEq] at h
      rw [show Nat.max a mt = if a ≤ mt then mt else a from rfl] at h
      rcases List.mem_cons.mp hx with rfl | hxt
      · split at h <;> omega
      · have hmt := ih mt ht x hxt
        split at h <;> omega

theorem listMin_mem (l : List Nat) (m : Nat) (h : listMin l = some m) : m ∈ l := by
  induction l generalizing m with
  | nil => simp [listMin] at h
  | cons a t ih =>
    cases ht : listMin t with
    | none =>
      simp only [listMin, ht, Option.some.injEq] at h
      subst h
      exact List.mem_cons_self a t
    | some mt =>
      simp only [listMin, ht, Option.some.injEq] at h
      rw [show Nat.min a mt = if a ≤ mt then a else mt from rfl] at h
      split at h
      · subst h
        exact List.mem_cons_self a t
      · subst h
        exact List.mem_cons_of_mem a (ih mt ht)

theorem mul_length_le_sum (l : List Nat) (a : Nat) (h : ∀ x ∈ l, a ≤ x) :
    a * l.length ≤ l.sum := by
  induction l with
  | nil => simp
  | cons b t ih =>
    simp only [List.length_cons, List.sum_cons, Nat.mul_succ]
    have hb := h b (List.mem_cons_self b t)
    have ht := ih (fun x hx => h x (List.mem_cons_of_mem b hx))
    omega

theorem sum_le_mul_length (l : List Nat) (b : Nat) (h : ∀ x ∈ l, x ≤ b) :
    l.sum ≤ b * l.length := by
  induction l with
  | nil => simp
  | cons a t ih =>
    simp only [List.length_cons, List.sum_cons, Nat.mul_succ]
    have ha := h a (List.mem_cons_self a t)
    have ht := ih (fun x hx => h x (List.mem_cons_of_mem a hx))
    omega

theorem seriesMean_bounds (l : List Nat) (mn mx : Nat) (hne : l ≠ [])
    (hmn : ∀ x ∈ l, mn ≤ x) (hmx : ∀ x ∈ l, x ≤ mx) :
    (mn : ℚ) ≤ seriesMean l ∧ seriesMean l ≤ (mx : ℚ) := by
  have hlen : 0 < l.length := List.length_pos.mpr hne
  have hlenQ : (0 : ℚ) < (l.length : ℚ) := by exact_mod_cast hlen
  have h1 : mn * l.length ≤ l.sum := mul_length_le_sum l mn hmn
  have h2 : l.sum ≤ mx * l.length := sum_le_mul_length l mx hmx
  constructor
  · rw [seriesMean, le_div_iff₀ hlenQ]
    exact_mod_cast h1
  · rw [seriesMean, div_le_iff₀ hlenQ]
    exact_mod_cast h2

theorem find?_split {α : Type} (p : α → Bool) (l : List α) (a : α)
    (h : l.find? p = some a) :
    p a = true ∧ ∃ l₁ l₂, l = l₁ ++ a :: l₂ ∧ ∀ x ∈ l₁, p x = false := by
  induction l with
  | nil => simp [List.find?] at h
  | cons b t ih =>
    by_cases hb : p b = true
    · rw [List.find?_cons_of_pos t hb] at h
      obtain rfl : b = a := by injection h
      exact ⟨hb, [], t, rfl, by simp⟩
    · rw [List.find?_cons_of_neg t hb] at h
      obtain ⟨hpa, l₁, l₂, rfl, hl₁⟩ := ih h
      refine ⟨hpa, b :: l₁, l₂, rfl, ?_⟩
      intro x hx
      rcases List.mem_cons.mp hx with rfl | hxl
      · exact Bool.eq_false_iff.mpr hb
      · exact hl₁ x hxl

/-- C3: for every non-empty series the advice-path summary succeeds and
satisfies `min ≤ mean ≤ max` (indeed `min`/`max` bound every price in
the series), and `best_day` is the date of a point whose price equals
the minimum — the first such point: the series splits as
`l₁ ++ p :: l₂` with `best_day = p.date`, `p.price` the minimum, and no
point of `l₁` attaining the minimum. -/
theorem computeSummary_stats (s : List PricePoint) (h : s ≠ []) :
    ∃ sm, computeSummary s = Except.ok sm ∧
      (sm.min_price : ℚ) ≤ sm.avg_price ∧ sm.avg_price ≤ (sm.max_price : ℚ) ∧
      (∀ q ∈ s, sm.min_price ≤ q.price ∧ q.price ≤ sm.max_price) ∧
      ∃ l₁ p l₂, s = l₁ ++ p :: l₂ ∧ p.price = sm.min_price ∧ sm.best_day = p.date ∧
        ∀ q ∈ l₁, q.price ≠ sm.min_price := by
  have hmape : s.map PricePoint.price ≠ [] := by simp [h]
  obtain ⟨mn, hmn⟩ : ∃ m, listMin (s.map PricePoint.price) = some m := by
    cases hh : listMin (s.map PricePoint.price) with
    | none => exact absurd ((listMin_eq_none_iff _).mp hh) hmape
    | some m => exact ⟨m, rfl⟩
  obtain ⟨mx, hmx⟩ : ∃ m, listMax (s.map PricePoint.price) = some m := by
    cases hh : listMax (s.map PricePoint.price) with
    | none => exact absurd ((listMax_eq_none_iff _).mp hh) hmape
    | some m => exact ⟨m, rfl⟩
  have hmnmem : mn ∈ s.map PricePoint.price := listMin_mem _ _ hmn
  obtain ⟨p0, hfind⟩ : ∃ p0, s.find? (fun q => q.price == mn) = some p0 := by
    have hsome : (s.find? (fun q => q.price == mn)).isSome := by
      rw [List.find?_isSome]
      obtain ⟨q, hq, hqe⟩ := List.mem_map.mp hmnmem
      exact ⟨q, hq, by simp [hqe]⟩
    exact Option.isSome_iff_exists.mp hsome
  refine ⟨{ avg_price := seriesMean (s.map PricePoint.price)
            min_price := mn
            max_price := mx
            best_day := p0.date }, ?_, ?_, ?_, ?_, ?_⟩
  · simp only [computeSummary, hmn, hmx, hfind]
  · exact (seriesMean_bounds (s.map PricePoint.price) mn mx hmape
      (listMin_le _ _ hmn) (listMax_ge _ _ hmx)).1
  · exact (seriesMean_bounds (s.map PricePoint.price) mn mx hmape
      (listMin_le _ _ hmn) (listMax_ge _ _ hmx)).2
  · intro q hq
    have hqmem : q.price ∈ s.map PricePoint.price := List.mem_map_of_mem PricePoint.price hq
    exact ⟨listMin_le _ _ hmn _ hqmem, listMax_ge _ _ hmx _ hqmem⟩
  · obtain ⟨hpa, l₁, l₂, hsplit, hl₁⟩ := find?_split (fun q => q.price == mn) s p0 hfind
    refine ⟨l₁, p0, l₂, hsplit, by simpa using hpa, rfl, ?_⟩
    intro q hq
    simpa using hl₁ q hq

/-- Witness for C3 at a four-point series with a tied minimum (300 at
dates 1 and 3; the reported best day must be date 1). -/
theorem computeSummary_stats_witness :
    ([⟨0, 400, "Monday"⟩, ⟨1, 300, "Tuesday"⟩, ⟨2, 500, "Wednesday"⟩,
      ⟨3, 300, "Thursday"⟩] : List PricePoint) ≠ [] ∧
    ∃ sm, computeSummary [⟨0, 400, "Monday"⟩, ⟨1, 300, "Tuesday"⟩,
        ⟨2, 500, "Wednesday"⟩, ⟨3, 300, "Thursday"⟩] = Except.ok sm ∧
      (sm.min_price : ℚ) ≤ sm.avg_price ∧ sm.avg_price ≤ (sm.max_price : ℚ) ∧
      (∀ q ∈ ([⟨0, 400, "Monday"⟩, ⟨1, 300, "Tuesday"⟩, ⟨2, 500, "Wednesday"⟩,
          ⟨3, 300, "Thursday"⟩] : List PricePoint),
        sm.min_price ≤ q.price ∧ q.price ≤ sm.max_price) ∧
      ∃ l₁ p l₂, ([⟨0, 400, "Monday"⟩, ⟨1, 300, "Tuesday"⟩, ⟨2, 500, "Wednesday"⟩,
          ⟨3, 300, "Thursday"⟩] : List PricePoint) = l₁ ++ p :: l₂ ∧
        p.price = sm.min_price ∧ sm.best_day = p.date ∧
        ∀ q ∈ l₁, q.price ≠ sm.min_price :=
  ⟨by simp, computeSummary_stats [⟨0, 400, "Monday"⟩, ⟨1, 300, "Tuesday"⟩,
      ⟨2, 500, "Wednesday"⟩, ⟨3, 300, "Thursday"⟩] (by simp)⟩

/-- C4: summarizing the empty series fails fast with an explicit error:
`idxmin` on the empty price column raises
`ValueError("attempt to get argmin of an empty sequence")`, so the
summary computation never returns a summary value (no NaN-like or zero
result), and — the statistics being computed before the `try` block —
the whole advice call errors out as well. -/
theorem computeSummary_empty_fails (o d : String) (w : Option WeatherSnapshot)
    (svc : String → LLMResult) :
    computeSummary [] = Except.error "attempt to get argmin of an empty sequence" ∧
    (∀ sm, computeSummary [] ≠ Except.ok sm) ∧
    get_travel_advice o d [] w svc
      = Except.error "attempt to get argmin of an empty sequence" := by
  refine ⟨rfl, ?_, rfl⟩
  intro sm hsm
  simp [computeSummary, listMin] at hsm

/-- C5: a series whose weekend partition (weekday name in
`['Friday', 'Saturday', 'Sunday']`) is empty gets an absent weekend
mean, and a series whose weekday partition (the complement) is empty
gets an absent weekday mean — the NaN that pandas produces for an empty
selection, not a fabricated number. -/
theorem partition_avg_absent (s : List PricePoint) :
    ((s.filter fun p => weekendNames.contains p.day_of_week) = [] →
       weekend_avg s = none) ∧
    ((s.filter fun p => !(weekendNames.contains p.day_of_week)) = [] →
       weekday_avg s = none) := by
  constructor
  · intro hemp
    simp only [weekend_avg]
    rw [hemp]
    rfl
  · intro hemp
    simp only [weekday_avg]
    rw [hemp]
    rfl

/-- Witness for C5: a weekday-only singleton has no weekend mean; a
Friday singleton has no weekday mean. -/
theorem partition_avg_absent_witness :
    weekend_avg [⟨0, 400, "Monday"⟩] = none ∧
    weekday_avg [⟨0, 500, "Friday"⟩] = none :=
  ⟨(partition_avg_absent [⟨0, 400, "Monday"⟩]).1 rfl,
   (partition_avg_absent [⟨0, 500, "Friday"⟩]).2 rfl⟩

/-- C6: the weather lookup is total in the network outcome: a raised
requests exception (timeout, connection error), a non-200 status, and a
200 response whose body fails to parse all yield the absent value
`none`; a 200 response with a parseable payload yields the snapshot
carrying temperature, condition description, humidity and wind speed. -/
theorem get_weather_spec (r : FetchOutcome) :
    (∀ msg, r = .exn msg → get_weather r = none) ∧
    (∀ st p, r = .response st p → st ≠ 200 → get_weather r = none) ∧
    (∀ st, r = .response st none → get_weather r = none) ∧
    (∀ raw, r = .response 200 (some raw) →
       get_weather r = some { temp := raw.temp_C
                              description := raw.weatherDesc
                              humidity := raw.humidity
                              wind_speed := raw.windspeedKmph }) := by
  refine ⟨?_, ?_, ?_, ?_⟩
  · intro msg hr
    subst hr
    rfl
  · intro st p hr hst
    subst hr
    simp [get_weather, hst]
  · intro st hr
    subst hr
    by_cases h200 : st = 200 <;> simp [get_weather, h200]
  · intro raw hr
    subst hr
    rfl

/-- Witness for C6 at the four concrete outcome shapes. -/
theorem get_weather_spec_witness :
    get_weather (.exn "timed out") = none ∧
    get_weather (.response 404 (some ⟨"7", "Sunny", "80", "12"⟩)) = none ∧
    get_weather (.response 200 none) = none ∧
    get_weather (.response 200 (some ⟨"7", "Sunny", "80", "12"⟩))
      = some ⟨"7", "Sunny", "80", "12"⟩ :=
  ⟨(get_weather_spec (.exn "timed out")).1 "timed out" rfl,
   (get_weather_spec (.response 404 (some ⟨"7", "Sunny", "80", "12"⟩))).2.1
     404 (some ⟨"7", "Sunny", "80", "12"⟩) rfl (by decide),
   (get_weather_spec (.response 200 none)).2.2.1 200 rfl,
   (get_weather_spec (.response 200 (some ⟨"7", "Sunny", "80", "12"⟩))).2.2.2
     ⟨"7", "Sunny", "80", "12"⟩ rfl⟩

theorem strContains_self (s : String) : strContains s s :=
  ⟨[], [], by simp⟩

theorem strContains_append_left (a b needle : String) (h : strContains a needle) :
    strContains (a ++ b) needle := by
  obtain ⟨l, r, hl⟩ := h
  refine ⟨l, r ++ b.data, ?_⟩
  rw [String.data_append, hl]
  simp [List.append_assoc]

theorem strContains_append_right (a b needle : String) (h : strContains b needle) :
    strContains (a ++ b) needle := by
  obtain ⟨l, r, hl⟩ := h
  refine ⟨a.data ++ l, r, ?_⟩
  rw [String.data_append, hl]
  simp [List.append_assoc]

/-- C7: the advice prompt always contains the route
`origin ++ " to " ++ destination` and the average/lowest (with best
day)/highest price lines; when no weather snapshot is present the
weather block is the empty string and the prompt equals the
weather-free text `prompt_without_weather` (whose definition mentions no
weather field); when a snapshot is present the prompt additionally
contains its temperature, conditions, humidity and wind-speed lines. -/
theorem build_prompt_contents (o d : String) (sm : PriceSummary)
    (w : Option WeatherSnapshot) :
    strContains (build_prompt o d sm w) (o ++ " to " ++ d) ∧
    strContains (build_prompt o d sm w) ("- Average Price: $" ++ fmt2 sm.avg_price) ∧
    strContains (build_prompt o d sm w)
      ("- Lowest Price: $" ++ fmt2 (sm.min_price : ℚ) ++ " (on " ++ toString sm.best_day ++ ")") ∧
    strContains (build_prompt o d sm w) ("- Highest Price: $" ++ fmt2 (sm.max_price : ℚ)) ∧
    (w = none → weather_info d w = "" ∧ build_prompt o d sm w = prompt_without_weather o d sm) ∧
    (∀ wd, w = some wd →
       strContains (build_prompt o d sm w) ("- Temperature: " ++ wd.temp ++ "°C") ∧
       strContains (build_prompt o d sm w) ("- Conditions: " ++ wd.description) ∧
       strContains (build_prompt o d sm w) ("- Humidity: " ++ wd.humidity ++ "%") ∧
       strContains (build_prompt o d sm w) ("- Wind Speed: " ++ wd.wind_speed ++ " km/h")) := by
  refine ⟨?_, ?_, ?_, ?_, ?_, ?_⟩
  · unfold build_prompt prompt_head
    apply strContains_append_left
    apply strContains_append_left
    iterate 8 apply strContains_append_left
    apply strContains_append_right
    apply strContains_append_right
    exact strContains_self _
  · unfold build_prompt prompt_head
    apply strContains_append_left
    apply strContains_append_left
    iterate 5 apply strContains_append_left
    apply strContains_append_right
    exact strContains_self _
  · unfold build_prompt prompt_head
    apply strContains_append_left
    apply strContains_append_left
    iterate 3 apply strContains_append_left
    apply strContains_append_right
    exact strContains_self _
  · unfold build_prompt prompt_head
    apply strContains_append_left
    apply strContains_append_left
    iterate 1 apply strContains_append_left
    apply strContains_append_right
    exact strContains_self _
  · intro hw
    subst hw
    refine ⟨rfl, ?_⟩
    show prompt_head o d sm ++ weather_info d none ++ prompt_tail
       = prompt_without_weather o d sm
    rw [show weather_info d none = "" from rfl, String.append_empty]
    rfl
  · intro wd hw
    subst hw
    refine ⟨?_, ?_, ?_, ?_⟩
    · unfold build_prompt
      apply strContains_append_left
      apply strContains_append_right
      simp only [weather_info]
      iterate 6 apply strContains_append_left
      apply strContains_append_right
      exact strContains_self _
    · unfold build_prompt
      apply strContains_append_left
      apply strContains_append_right
      simp only [weather_info]
      iterate 4 apply strContains_append_left
      apply strContains_append_right
      exact strContains_self _
    · unfold build_prompt
      apply strContains_append_left
      apply strContains_append_right
      simp only [weather_info]
      iterate 2 apply strContains_append_left
      apply strContains_append_right
      exact strContains_self _
    · unfold build_prompt
      apply strContains_append_left
      apply strContains_append_right
      simp only [weather_info]
      apply strContains_append_right
      exact strContains_self _

/-- Witness for C7: with no snapshot the weather block is empty and the
prompt is the weather-free text; with a snapshot the prompt carries the
temperature line. -/
theorem build_prompt_contents_witness :
    (weather_info "London" (none : Option WeatherSnapshot) = "" ∧
     build_prompt "NYC" "London" ⟨400, 300, 500, 2⟩ none
       = prompt_without_weather "NYC" "London" ⟨400, 300, 500, 2⟩) ∧
    strContains (build_prompt "NYC" "London" ⟨400, 300, 500, 2⟩
        (some ⟨"7", "Sunny", "80", "12"⟩))
      ("- Temperature: " ++ (⟨"7", "Sunny", "80", "12"⟩ : WeatherSnapshot).temp ++ "°C") :=
  ⟨(build_prompt_contents "NYC" "London" ⟨400, 300, 500, 2⟩ none).2.2.2.2.1 rfl,
   ((build_prompt_contents "NYC" "London" ⟨400, 300, 500, 2⟩
       (some ⟨"7", "Sunny", "80", "12"⟩)).2.2.2.2.2 ⟨"7", "Sunny", "80", "12"⟩ rfl).1⟩

/-- C8: whenever the language-model call on the built prompt fails (any
raised transport or service exception), `get_travel_advice` returns the
human-readable string `"Error getting travel advice: " ++ str(e)` —
which carries the error indicator — instead of propagating the
exception; on success it returns the text of the first content block. -/
theorem get_travel_advice_error_string (o d : String) (s : List PricePoint)
    (w : Option WeatherSnapshot) (svc : String → LLMResult) (sm : PriceSummary)
    (hsm : computeSummary s = Except.ok sm) :
    (∀ msg, svc (build_prompt o d sm w) = .failure msg →
       get_travel_advice o d s w svc = .ok ("Error getting travel advice: " ++ msg) ∧
       strContains ("Error getting travel advice: " ++ msg) "Error getting travel advice: ") ∧
    (∀ t ts, svc (build_prompt o d sm w) = .success (t :: ts) →
       get_travel_advice o d s w svc = .ok t) := by
  constructor
  · intro msg hsvc
    constructor
    · simp only [get_travel_advice, hsm, hsvc, advice_of_result]
    · exact strContains_append_left _ _ _ (strContains_self _)
  · intro t ts hsvc
    simp only [get_travel_advice, hsm, hsvc, advice_of_result]

/-- Witness for C8: a one-point series, a service that always raises
`boom`, and a service that returns one content block `ok text`. -/
theorem get_travel_advice_error_string_witness :
    computeSummary [⟨0, 400, "Monday"⟩]
      = Except.ok ⟨seriesMean [400], 400, 400, 0⟩ ∧
    get_travel_advice "NYC" "London" [⟨0, 400, "Monday"⟩] none (fun _ => .failure "boom")
      = .ok ("Error getting travel advice: " ++ "boom") ∧
    get_travel_advice "NYC" "London" [⟨0, 400, "Monday"⟩] none (fun _ => .success ["ok text"])
      = .ok "ok text" :=
  ⟨rfl,
   ((get_travel_advice_error_string "NYC" "London" [⟨0, 400, "Monday"⟩] none
       (fun _ => .failure "boom")
       ⟨seriesMean [400], 400, 400, 0⟩ rfl).1
     "boom" rfl).1,
   (get_travel_advice_error_string "NYC" "London" [⟨0, 400, "Monday"⟩] none
       (fun _ => .success ["ok text"])
       ⟨seriesMean [400], 400, 400, 0⟩ rfl).2
     "ok text" [] rfl⟩

/-- C9: when session state holds no series, the advice button renders
the "Please search for flights first!" warning and never invokes the
language-model service — the handler's output is identical for every
possible service; when a stored series exists, the handler runs
`get_travel_advice` on it. -/
theorem advice_button_gated (state : SessionState) (o d : String)
    (w : Option WeatherSnapshot) (svc : String → LLMResult) :
    (state.flight_df = none →
       advice_button_handler state o d w svc
         = .ok (.warning "Please search for flights first!") ∧
       ∀ svc2, advice_button_handler state o d w svc
         = advice_button_handler state o d w svc2) ∧
    (∀ df, state.flight_df = some df →
       advice_button_handler state o d w svc
         = (get_travel_advice o d df w svc).map AdviceOutput.advice) := by
  constructor
  · intro hn
    constructor
    · simp [advice_button_handler, hn]
    · intro svc2
      simp [advice_button_handler, hn]
  · intro df hd
    simp [advice_button_handler, hd]

/-- Witness for C9: empty session state warns (with the service an
always-failing stub whose answer is ignored); populated session state
runs the advice call. -/
theorem advice_button_gated_witness :
    advice_button_handler ⟨none⟩ "NYC" "London" none (fun _ => .failure "boom")
      = .ok (.warning "Please search for flights first!") ∧
    advice_button_handler ⟨some [⟨0, 400, "Monday"⟩]⟩ "NYC" "London" none
        (fun _ => .failure "boom")
      = (get_travel_advice "NYC" "London" [⟨0, 400, "Monday"⟩] none
          (fun _ => .failure "boom")).map AdviceOutput.advice :=
  ⟨((advice_button_gated ⟨none⟩ "NYC" "London" none (fun _ => .failure "boom")).1 rfl).1,
   (advice_button_gated ⟨some [⟨0, 400, "Monday"⟩]⟩ "NYC" "London" none
       (fun _ => .failure "boom")).2 [⟨0, 400, "Monday"⟩] rfl⟩

/-- C10: whenever the app's snapshot (fetched for `weather_city`) is
present, the prompt labels the weather block "Current weather in
{destination}"; the prompt depends on the queried city only through the
snapshot, so any two queried cities yielding the same snapshot produce
the identical prompt — in particular, when `destination ≠ weather_city`
the prompt attributes the queried city's weather to the destination. -/
theorem app_prompt_weather_mislabel (o d wc : String)
    (fetch : String → FetchOutcome) (sm : PriceSummary) (wd : WeatherSnapshot)
    (h : app_weather_data wc fetch = some wd) :
    strContains (app_advice_prompt o d wc fetch sm) ("Current weather in " ++ d) ∧
    (∀ wc2 fetch2, app_weather_data wc2 fetch2 = some wd →
       app_advice_prompt o d wc2 fetch2 sm = app_advice_prompt o d wc fetch sm) := by
  constructor
  · unfold app_advice_prompt
    rw [h]
    unfold build_prompt
    apply strContains_append_left
    apply strContains_append_right
    simp only [weather_info]
    iterate 8 apply strContains_append_left
    apply strContains_append_right
    exact strContains_self _
  · intro wc2 fetch2 h2
    unfold app_advice_prompt
    rw [h, h2]

/-- Witness for C10: the weather box queried Tokyo, the route goes to
London, and the prompt says "Current weather in London". -/
theorem app_prompt_weather_mislabel_witness :
    app_weather_data "Tokyo" (fun _ => .response 200 (some ⟨"5", "Rain", "90", "20"⟩))
      = some ⟨"5", "Rain", "90", "20"⟩ ∧
    strContains
      (app_advice_prompt "NYC" "London" "Tokyo"
        (fun _ => .response 200 (some ⟨"5", "Rain", "90", "20"⟩)) ⟨400, 300, 500, 2⟩)
      ("Current weather in " ++ "London") :=
  ⟨rfl,
   (app_prompt_weather_mislabel "NYC" "London" "Tokyo"
      (fun _ => .response 200 (some ⟨"5", "Rain", "90", "20"⟩)) ⟨400, 300, 500, 2⟩
      ⟨"5", "Rain", "90", "20"⟩ rfl).1⟩
